import Mathlib

/-!
Verification of the snowpeak tracker backend core: resort data caching,
freshness evaluation, source fallback, date normalization, background
refresh and alert matching.

The definitions below are a shallow embedding of the TypeScript backend
(routes/resorts.ts, routes/alerts.ts, routes/forecasts.ts,
services/backgroundRefresh.ts and the OnTheSnow scraper service).
JavaScript machine integers and timestamps are modelled as Int
(millisecond epoch values), DATE columns as epoch day counts where
noted, and fallible operations as Option or Except. The evaluating
process is modelled as running in the UTC timezone (the deployment
assumption); where the code would be sensitive to the process-local
timezone, the local UTC offset is threaded explicitly as a parameter.
-/

namespace Snowpeak

/-! ## Calendar arithmetic

Gregorian civil-date conversion, used to model the JavaScript Date
object: days are counted from the Unix epoch 1970-01-01.
-/

/-- Leap-year test for the proleptic Gregorian calendar. -/
def isLeapYear (y : Int) : Bool :=
  (y.emod 4 = 0 && y.emod 100 != 0) || y.emod 400 = 0

/-- Number of days in a month (1-12) of year y. -/
def monthLength (y m : Int) : Int :=
  if m = 2 then (if isLeapYear y then 29 else 28)
  else if m = 4 ∨ m = 6 ∨ m = 9 ∨ m = 11 then 30
  else 31

/-- Days since 1970-01-01 of the civil date (y, m, d), months 1-12.
Standard era-based conversion; floor division so that all Int inputs
(including day overflow, as produced by the JavaScript Date
constructor) are handled. -/
def daysFromCivil (y m d : Int) : Int :=
  let yy := if m <= 2 then y - 1 else y
  let era := Int.fdiv yy 400
  let yoe := yy - era * 400
  let mp := Int.emod (m + 9) 12
  let doy := Int.fdiv (153 * mp + 2) 5 + d - 1
  let doe := yoe * 365 + Int.fdiv yoe 4 - Int.fdiv yoe 100 + doy
  era * 146097 + doe - 719468

/-- Civil date (y, m, d) of a day count since 1970-01-01; inverse of
daysFromCivil on valid dates. -/
def civilFromDays (z0 : Int) : Int × Int × Int :=
  let z := z0 + 719468
  let era := Int.fdiv z 146097
  let doe := z - era * 146097
  let yoe := Int.fdiv (doe - Int.fdiv doe 1460 + Int.fdiv doe 36524 - Int.fdiv doe 146096) 365
  let y := yoe + era * 400
  let doy := doe - (365 * yoe + Int.fdiv yoe 4 - Int.fdiv yoe 100)
  let mp := Int.fdiv (5 * doy + 2) 153
  let d := doy - Int.fdiv (153 * mp + 2) 5 + 1
  let m := mp + (if mp < 10 then 3 else -9)
  (if m <= 2 then y + 1 else y, m, d)

/-- Digit character of n % 10. -/
def digitChar (n : Int) : Char :=
  Char.ofNat (48 + (Int.emod n 10).toNat)

/-- Two-digit zero-padded rendering, as String(x).padStart(2, the zero
digit) produces for 0-99. -/
def pad2 (n : Int) : String :=
  String.mk [digitChar (Int.fdiv n 10), digitChar n]

/-- Four-digit rendering of a year 0-9999, as Date.prototype.toISOString
prints it. -/
def pad4 (n : Int) : String :=
  String.mk [digitChar (Int.fdiv n 1000), digitChar (Int.fdiv n 100),
             digitChar (Int.fdiv n 10), digitChar n]

/-- The date part of toISOString for the given epoch day count:
YYYY-MM-DD. -/
def formatEpochDay (z : Int) : String :=
  let c := civilFromDays z
  pad4 c.1 ++ "-" ++ pad2 c.2.1 ++ "-" ++ pad2 c.2.2

/-- Epoch day count of the JavaScript expression
new Date(y, m0, d) (month index m0 based at 0, with month and day
overflow normalized exactly as the Date constructor does), for a
process running in UTC. -/
def jsDateYMD (y m0 d : Int) : Int :=
  let total := y * 12 + m0
  let ny := Int.fdiv total 12
  let nm0 := Int.emod total 12
  daysFromCivil ny (nm0 + 1) 1 + (d - 1)

/-! ## JavaScript string and number helpers -/

/-- Digits of a character list read as a base-10 natural number. -/
def digitsToNat (l : List Char) : Nat :=
  l.foldl (fun a c => a * 10 + (c.toNat - 48)) 0

/-- Whitespace trimming of a character list, as JavaScript string
coercions apply before numeric conversion. -/
def jsTrim (l : List Char) : List Char :=
  ((l.dropWhile Char.isWhitespace).reverse.dropWhile Char.isWhitespace).reverse

/-- The JavaScript Number(s) conversion, modelled on integer-valued
numeric strings: the empty (or all-whitespace) string converts to 0, a
string of digits with an optional sign converts to that integer, and
anything else is NaN (None). Fractional or exotic numeric syntax is
outside the modelled domain (forecast dates are MM/DD digit strings). -/
def jsNumber (s : String) : Option Int :=
  match jsTrim s.data with
  | [] => some 0
  | '-' :: rest =>
      if rest.all Char.isDigit && !rest.isEmpty then some (-(digitsToNat rest : Int)) else none
  | '+' :: rest =>
      if rest.all Char.isDigit && !rest.isEmpty then some (digitsToNat rest : Int) else none
  | l => if l.all Char.isDigit then some (digitsToNat l : Int) else none

/-- The JavaScript parseInt(s, 10): after trimming, parses the longest
leading run of digits with an optional sign; NaN (None) if there is
none. -/
def jsParseInt (s : String) : Option Int :=
  match jsTrim s.data with
  | '-' :: rest =>
      let ds := rest.takeWhile Char.isDigit
      if ds.isEmpty then none else some (-(digitsToNat ds : Int))
  | '+' :: rest =>
      let ds := rest.takeWhile Char.isDigit
      if ds.isEmpty then none else some (digitsToNat ds : Int)
  | l =>
      let ds := l.takeWhile Char.isDigit
      if ds.isEmpty then none else some (digitsToNat ds : Int)

/-- The JavaScript String.prototype.split on a single-character
separator, on character lists: every occurrence separates, empty pieces
are kept, and the empty list yields one empty piece. -/
def splitOnChar (c : Char) : List Char → List (List Char)
  | [] => [[]]
  | x :: xs =>
      if x = c then [] :: splitOnChar c xs
      else
        match splitOnChar c xs with
        | [] => [[x]]
        | p :: ps => (x :: p) :: ps

/-! ## Date normalization (routes/resorts.ts parseDate)

The route handler normalizes short MM/DD forecast dates from upstream
sources into absolute YYYY-MM-DD dates, rolling the year at season
boundaries. The reference clock (new Date()) is passed in as its local
year and 0-based month; the process is modelled as running in UTC, so
toISOString of a Date built from local components returns the same
civil date.
-/

/-- Test for the regular expression \d{4}-\d{2}-\d{2} anchored at both
ends: an already-absolute YYYY-MM-DD date string. -/
def isIsoDateShape (l : List Char) : Bool :=
  match l with
  | [y1, y2, y3, y4, '-', m1, m2, '-', d1, d2] =>
      y1.isDigit && y2.isDigit && y3.isDigit && y4.isDigit &&
      m1.isDigit && m2.isDigit && d1.isDigit && d2.isDigit
  | _ => false

/-- The month and day extracted by
dateStr.split(slash).map(Number) followed by destructuring the first
two elements: a missing element is undefined, and Number(undefined) is
NaN (None). -/
def monthDayOf (s : String) : Option Int × Option Int :=
  let parts := (splitOnChar '/' s.data).map (fun p => jsNumber (String.mk p))
  (parts.getD 0 none, parts.getD 1 none)

/-- Embedding of parseDate from routes/resorts.ts. Arguments refYear
and refMonth0 are new Date().getFullYear() and new Date().getMonth() at
the time of the call. Returns the YYYY-MM-DD string stored as the
forecast date, or none. -/
def parseDate (refYear refMonth0 : Int) (dateStr : String) : Option String :=
  if dateStr = "" then none
  else if isIsoDateShape dateStr.data then some dateStr
  else
    let year := refYear
    match monthDayOf dateStr with
    | (some month, some day) =>
        if month != 0 && day != 0 then
          let diffMonths := (refMonth0 - (month - 1)) + 12 * (refYear - year)
          let y :=
            if diffMonths > 6 then year + 1
            else if diffMonths < -6 then year - 1
            else year
          some (formatEpochDay (jsDateYMD y (month - 1) day))
        else none
    | _ => none

/-- Statement of the claimed year-assignment rule, written from the
specification text: assuming the current year, if the date falls more
than 6 calendar months before the reference time the year is rolled
forward by one; more than 6 calendar months after, rolled back by one.
Calendar-month distance between the reference month and the naive
(current-year) month is measured on the absolute month index
year * 12 + month0. -/
def normalizeForecastDateSpec (refYear refMonth0 month day : Int) : String :=
  let refAbsMonth := refYear * 12 + refMonth0
  let naiveAbsMonth := refYear * 12 + (month - 1)
  let monthsInPast := refAbsMonth - naiveAbsMonth
  let y :=
    if monthsInPast > 6 then refYear + 1
    else if monthsInPast < -6 then refYear - 1
    else refYear
  formatEpochDay (jsDateYMD y (month - 1) day)

/-! ## Freshness evaluation (routes/resorts.ts parseDbTimestamp)

The store can return timestamp-without-time-zone values such as
2026-01-12T03:19:40.195. JavaScript Date parsing interprets such a
naive date-time string as local time, which the code defends against
by appending a Z suffix before parsing. The JavaScript Date.parse of
an ISO string is modelled below; the process-local timezone enters as
an explicit offset parameter off, with local time = UTC + off
milliseconds, used only for naive date-time strings.
-/

/-- Zone designator recognized at the end of an ISO time string. -/
inductive Zone
  | utcZ
  | offsetMin (k : Int)
  | noMarker
deriving DecidableEq

/-- Recognizes a trailing +HH:MM or -HH:MM zone designator, returning
the remaining characters and the signed offset in minutes. -/
def zoneOffsetOf (l : List Char) : Option (List Char × Int) :=
  match l.reverse with
  | m2 :: m1 :: c3 :: h2 :: h1 :: c6 :: rest =>
      if (c6 = '+' ∨ c6 = '-') ∧ c3 = ':' ∧
         m2.isDigit ∧ m1.isDigit ∧ h2.isDigit ∧ h1.isDigit then
        some (rest.reverse,
          (if c6 = '-' then -1 else 1) *
            ((digitsToNat [h1, h2] : Int) * 60 + (digitsToNat [m1, m2] : Int)))
      else none
  | _ => none

/-- Splits an ISO time string into its core and its zone designator:
a trailing Z means UTC, a trailing signed HH:MM is a fixed offset, and
otherwise there is no marker (JavaScript then applies local time). -/
def splitZone (l : List Char) : List Char × Zone :=
  match l.reverse with
  | c :: rest =>
      if c = 'Z' then (rest.reverse, Zone.utcZ)
      else
        match zoneOffsetOf l with
        | some (core, k) => (core, Zone.offsetMin k)
        | none => (l, Zone.noMarker)
  | [] => (l, Zone.noMarker)

/-- Milliseconds into the day of an ISO time-of-day string HH:MM,
HH:MM:SS or HH:MM:SS followed by a dot and one to three fractional
digits; none if malformed. -/
def parseTimeCore (l : List Char) : Option Int :=
  match l with
  | [h1, h2, c1, m1, m2] =>
      if c1 = ':' ∧ [h1, h2, m1, m2].all Char.isDigit then
        let hh := (digitsToNat [h1, h2] : Int)
        let mm := (digitsToNat [m1, m2] : Int)
        if hh ≤ 23 ∧ mm ≤ 59 then some (hh * 3600000 + mm * 60000) else none
      else none
  | [h1, h2, c1, m1, m2, c2, s1, s2] =>
      if c1 = ':' ∧ c2 = ':' ∧ [h1, h2, m1, m2, s1, s2].all Char.isDigit then
        let hh := (digitsToNat [h1, h2] : Int)
        let mm := (digitsToNat [m1, m2] : Int)
        let ss := (digitsToNat [s1, s2] : Int)
        if hh ≤ 23 ∧ mm ≤ 59 ∧ ss ≤ 59 then
          some (hh * 3600000 + mm * 60000 + ss * 1000)
        else none
      else none
  | h1 :: h2 :: c1 :: m1 :: m2 :: c2 :: s1 :: s2 :: c3 :: fr =>
      if c1 = ':' ∧ c2 = ':' ∧ c3 = '.' ∧
         ([h1, h2, m1, m2, s1, s2].all Char.isDigit &&
          fr.all Char.isDigit && !fr.isEmpty && fr.length ≤ 3) = true then
        let hh := (digitsToNat [h1, h2] : Int)
        let mm := (digitsToNat [m1, m2] : Int)
        let ss := (digitsToNat [s1, s2] : Int)
        let ms := (digitsToNat (fr ++ List.replicate (3 - fr.length) '0') : Int)
        if hh ≤ 23 ∧ mm ≤ 59 ∧ ss ≤ 59 then
          some (hh * 3600000 + mm * 60000 + ss * 1000 + ms)
        else none
      else none
  | _ => none

/-- Parses a leading calendar date YYYY-MM-DD (exactly ten characters)
with range validation, as the ISO date parser of the engine does. -/
def dateHead (l : List Char) : Option (Int × Int × Int) :=
  match l with
  | [y1, y2, y3, y4, s1, mo1, mo2, s2, d1, d2] =>
      if s1 = '-' ∧ s2 = '-' ∧ [y1, y2, y3, y4, mo1, mo2, d1, d2].all Char.isDigit then
        let y := (digitsToNat [y1, y2, y3, y4] : Int)
        let mo := (digitsToNat [mo1, mo2] : Int)
        let d := (digitsToNat [d1, d2] : Int)
        if 1 ≤ mo ∧ mo ≤ 12 ∧ 1 ≤ d ∧ d ≤ monthLength y mo then some (y, mo, d) else none
      else none
  | _ => none

/-- The JavaScript Date.parse of an ISO string, on character lists.
A date-only string (with optional trailing Z) is UTC midnight; a
date-time string with zone designator uses that zone; a naive
date-time string is interpreted as local wall-clock time, with local
time = UTC + off milliseconds; anything else is NaN (none). -/
def jsDateParseL (off : Int) (l : List Char) : Option Int :=
  match dateHead (l.take 10) with
  | none => none
  | some (y, mo, d) =>
      let dayMs := daysFromCivil y mo d * 86400000
      match l.drop 10 with
      | [] => some dayMs
      | c :: rest =>
          if c = 'Z' ∧ rest = [] then some dayMs
          else if c = 'T' then
            let p := splitZone rest
            match parseTimeCore p.1 with
            | some tm =>
                match p.2 with
                | Zone.utcZ => some (dayMs + tm)
                | Zone.offsetMin k => some (dayMs + tm - k * 60000)
                | Zone.noMarker => some (dayMs + tm - off)
            | none => none
          else none

/-- Date.parse on strings. -/
def jsDateParse (off : Int) (s : String) : Option Int :=
  jsDateParseL off s.data

/-- The check value.endsWith of the letter Z from parseDbTimestamp. -/
def jsEndsWithZ (l : List Char) : Bool :=
  match l.reverse with
  | c :: _ => c = 'Z'
  | _ => false

/-- The check value.includes of the plus sign from parseDbTimestamp. -/
def jsHasPlus (l : List Char) : Bool := l.contains '+'

/-- The regular-expression check for a trailing -HH:MM offset from
parseDbTimestamp. -/
def jsEndsOffset (l : List Char) : Bool :=
  match l.reverse with
  | m2 :: m1 :: c3 :: h2 :: h1 :: c6 :: _ =>
      c6 = '-' && c3 = ':' && m2.isDigit && m1.isDigit && h2.isDigit && h1.isDigit
  | _ => false

/-- The hasTz test of parseDbTimestamp: a trailing Z, any plus sign, or
a trailing -HH:MM offset counts as an explicit timezone marker. -/
def hasTzMarker (l : List Char) : Bool := jsEndsWithZ l || jsHasPlus l || jsEndsOffset l

/-- The JavaScript values a store row field can hold, as distinguished
by the type tests in parseDbTimestamp. -/
inductive JsValue
  | nullV
  | undef
  | num (n : Int)
  | str (s : String)
  | dateObj (ms : Int)
  | obj
deriving DecidableEq

/-- JavaScript falsiness of those values, as the initial bang-value
test of parseDbTimestamp sees them. -/
def jsFalsy : JsValue → Bool
  | .nullV => true
  | .undef => true
  | .num n => n == 0
  | .str s => s == ""
  | _ => false

/-- Embedding of parseDbTimestamp from routes/resorts.ts: falsy values
give epoch 0, Date objects give their time, numbers pass through,
other non-strings give 0, and strings are parsed with a Z appended
when no timezone marker is present. The result stands in for the
number the route handler subtracts from Date.now; parse failure (NaN)
is mapped to 0 by the Number.isFinite guard. -/
def parseDbTimestamp (off : Int) (v : JsValue) : Int :=
  if jsFalsy v then 0
  else
    match v with
    | .dateObj ms => ms
    | .num n => n
    | .str s =>
        let iso := if hasTzMarker s.data then s else s ++ "Z"
        (jsDateParse off iso).getD 0
    | _ => 0

/-- Cache duration of the resort route, in hours. -/
def CACHE_DURATION_HOURS : Int := 1

/-- The cache age in whole seconds the route handler computes from the
created-at column of the latest snow report: floor of the millisecond
difference divided by 1000. -/
def reportCacheAgeSeconds (off now : Int) (createdAt : JsValue) : Int :=
  Int.fdiv (now - parseDbTimestamp off createdAt) 1000

/-- The freshness test of the route handler: the report is fresh when
its cache age is below the cache duration in seconds. -/
def hasFreshCache (off now : Int) (createdAt : JsValue) : Bool :=
  reportCacheAgeSeconds off now createdAt < CACHE_DURATION_HOURS * 3600

/-! ## Source fallback chain (routes/resorts.ts GET /:id, cache-miss path)

On a cache miss the handler tries the OnTheSnow scraper first and falls
back to the Gemini service when the scraper throws (the scraper turns a
404 page into a thrown error); if the fallback also throws, the outer
catch returns a 500 failure before any upsert has run. Provider calls
are modelled as Except values; the store writes the handler would issue
are collected as a list of write operations. Upserts of the store
itself are modelled as succeeding; the claims under study concern
provider failures only.
-/

/-- A store write the cache-miss path can issue. -/
inductive WriteOp
  | resortUpsert (id : String)
  | snowReportUpsert (resortId reportDate : String)
  | forecastUpsert (resortId forecastDate : String)
deriving DecidableEq

/-- A forecast-day entry of a provider snapshot: the short date string
and predicted snowfall. -/
structure ForecastDayIn where
  date : String
  snowInches : Int
deriving DecidableEq

/-- A provider snapshot, reduced to the fields the write path reads:
resort name and the optional forecast array. -/
structure Snapshot where
  name : String
  forecast : Option (List ForecastDayIn)
deriving DecidableEq

/-- Outcome of the cache-miss path: the response sent (fresh data or a
500 failure), how many times the Gemini provider was invoked, and the
store writes performed. -/
structure MissOutcome where
  response : Except String Snapshot
  geminiCalls : Nat
  writes : List WriteOp

/-- The upserts the handler performs once a provider snapshot is in
hand: the resort row, the snow report for today, and one forecast row
per forecast day whose date normalizes (parseDate) to an absolute
date. -/
def upsertWrites (id : String) (refYear refMonth0 : Int) (today : String)
    (d : Snapshot) : List WriteOp :=
  WriteOp.resortUpsert id :: WriteOp.snowReportUpsert id today ::
    (match d.forecast with
     | some days =>
         days.filterMap (fun day =>
           (parseDate refYear refMonth0 day.date).map
             (fun fd => WriteOp.forecastUpsert id fd))
     | none => [])

/-- Embedding of the cache-miss branch of the resort route handler:
try the scraper; on a thrown scraper error invoke Gemini once; persist
and return whichever snapshot was obtained; if Gemini also throws the
outer catch returns the 500 failure response with no writes done. -/
def handleCacheMiss (id : String) (refYear refMonth0 : Int) (today : String)
    (scrape gemini : Except String Snapshot) : MissOutcome :=
  match scrape with
  | .ok d =>
      { response := .ok d, geminiCalls := 0
        writes := upsertWrites id refYear refMonth0 today d }
  | .error _ =>
      match gemini with
      | .ok d =>
          { response := .ok d, geminiCalls := 1
            writes := upsertWrites id refYear refMonth0 today d }
      | .error _ =>
          { response := .error "Failed to fetch resort data", geminiCalls := 1, writes := [] }

/-! ## Refresh orchestrator (services/backgroundRefresh.ts)

refreshAllCachedResorts iterates the resort ids returned by the store
and fetches each through the route handler; a per-entity try/catch
counts failures without aborting the loop. Entities are modelled as
pairs of an id and the success of its fetch.
-/

/-- The summary object the refresh sweep returns. -/
structure RefreshSummary where
  total : Nat
  success : Nat
  failed : Nat
deriving DecidableEq

/-- The per-entity loop of refreshAllCachedResorts: each entity is
processed inside try/catch, incrementing success or failed, and the
loop continues regardless. The processed accumulator records the order
entities were attempted. -/
def refreshLoop : List (String × Bool) → Nat → Nat → List String → Nat × Nat × List String
  | [], succ, fail, processed => (succ, fail, processed)
  | e :: rest, succ, fail, processed =>
      if e.2 then refreshLoop rest (succ + 1) fail (processed ++ [e.1])
      else refreshLoop rest succ (fail + 1) (processed ++ [e.1])

/-- Embedding of refreshAllCachedResorts: runs the loop over all ids
and reports total = number of ids together with the two counters. -/
def refreshAllCachedResorts (entities : List (String × Bool)) :
    RefreshSummary × List String :=
  let r := refreshLoop entities 0 0 []
  ({ total := entities.length, success := r.1, failed := r.2.1 }, r.2.2)

/-! ## Storage adapter (detectDbMode in routes/resorts.ts and
services/backgroundRefresh.ts)

The adapter probes the snake-case resorts table once; a missing-table
error makes it probe the Prisma-style Resort table; any other probe
error is swallowed and the adapter settles on snake mode. The resolved
mode is cached in a module-level variable. The supabase client reports
errors as data (never throws), so the embedding returns Except to show
that no path raises: a thrown error would appear as an error value.
-/

/-- The two store naming conventions. -/
inductive DbMode
  | snake
  | prisma
deriving DecidableEq

/-- A PostgREST error object as the adapter inspects it. -/
structure DbError where
  code : String
  message : String
deriving DecidableEq

/-- Occurrence test of a pattern inside a character list: the pattern
is a prefix at some position. -/
def listHasInfix (pat : List Char) : List Char → Bool
  | [] => pat.isEmpty
  | x :: tail => pat.isPrefixOf (x :: tail) || listHasInfix pat tail

/-- The JavaScript String.prototype.includes test. -/
def jsIncludes (s pat : String) : Bool := listHasInfix pat.data s.data

/-- Embedding of isMissingTableError: a null error is not a
missing-table signal; otherwise code PGRST205 or a message containing
the missing-table phrase is. -/
def isMissingTableError : Option DbError → Bool
  | none => false
  | some e => e.code == "PGRST205" || jsIncludes e.message "Could not find the table"

/-- Embedding of detectDbMode. Inputs: the module-level cache and the
error fields (none = success) the two probes would report. Output: the
result (an Except so that a raised error could be expressed; the code
raises on no path), the new cache value, and how many probe reads were
issued during this call. -/
def detectDbMode (cache : Option DbMode) (snakeProbe prismaProbe : Option DbError) :
    Except DbError DbMode × Option DbMode × Nat :=
  match cache with
  | some m => (.ok m, some m, 0)
  | none =>
      match snakeProbe with
      | none => (.ok .snake, some .snake, 1)
      | some err =>
          if !isMissingTableError (some err) then (.ok .snake, some .snake, 1)
          else
            match prismaProbe with
            | none => (.ok .prisma, some .prisma, 2)
            | some _ => (.ok .snake, some .snake, 2)

/-! ## Background refresh scheduler (startBackgroundRefreshScheduler)

The scheduler is gated on REFRESH_SCHEDULER_ENABLED being exactly the
string true; the interval comes from REFRESH_INTERVAL_HOURS through
parseInt with a fallback, and the first run fires 15 seconds after
startup via setTimeout, then repeats on the fixed interval via
setInterval. The timers are modelled as the plan the function installs.
-/

/-- The timer plan the scheduler installs: one run after the initial
delay, then a run every interval. -/
structure SchedulerPlan where
  initialDelayMs : Int
  intervalMs : Int
deriving DecidableEq

/-- Embedding of startBackgroundRefreshScheduler over the two
environment variables it reads: none when disabled, otherwise the
installed plan. The expression parseInt(env or the string 1, 10) or 1
maps an unset or empty variable to 1 hour and a NaN or zero parse to
1 as well. -/
def startBackgroundRefreshScheduler (enabledEnv intervalEnv : Option String) :
    Option SchedulerPlan :=
  let enabled := enabledEnv == some "true"
  if !enabled then none
  else
    let raw := match intervalEnv with
      | some s => if s = "" then "1" else s
      | none => "1"
    let everyHours := match jsParseInt raw with
      | some n => if n = 0 then 1 else n
      | none => 1
    some { initialDelayMs := 15000, intervalMs := everyHours * 60 * 60 * 1000 }

/-! ## Two-tier cache constants (routes/forecasts.ts)

The top-resorts route keeps an in-memory cache of ranked results with
a fixed duration and, on a memory miss, queries the store for forecast
rows fetched within the last hour.
-/

/-- The in-memory cache duration of the top-resorts route, in
milliseconds. -/
def CACHE_DURATION : Int := 60 * 60 * 1000

/-- Milliseconds of history the getHoursAgo helper spans: the cutoff
passed to the store query is now minus this many milliseconds. -/
def getHoursAgoMs (hours : Int) : Int := hours * 60 * 60 * 1000

/-- The persistent-store freshness window of the top-resorts route:
forecast rows count as cached only when fetched within the last hour
(getHoursAgo 1). -/
def topDbFreshnessWindowMs : Int := getHoursAgoMs 1

/-- The memory-tier hit test of the top-resorts route: no forced
refresh, a non-empty cached entry, and age below the cache duration. -/
def memoryCacheHit (refresh : Bool) (dataLen : Nat) (now ts : Int) : Bool :=
  !refresh && decide (0 < dataLen) && decide (now - ts < CACHE_DURATION)

/-! ## Alert matching engine (routes/alerts.ts checkForAlerts)

checkForAlerts loads the subscription, looks up its threshold band,
queries the forecasts of its resort inside the lookahead window that
meet the threshold minimum ordered by predicted snowfall descending
with limit one, skips when a notification for the same subscription
and forecast date was created within the last 24 hours, and otherwise
inserts one notification and stamps the subscription. DATE columns are
modelled as epoch day counts, timestamps as epoch milliseconds; the
fallibility of the notification insert is an explicit flag.
-/

/-- A threshold band: closed snowfall range with its display label. -/
structure Threshold where
  min : Int
  max : Int
  label : String
deriving DecidableEq

/-- The THRESHOLDS table of routes/alerts.ts, looked up by band name;
an unknown name yields none (undefined). -/
def THRESHOLDS (name : String) : Option Threshold :=
  if name = "light" then some { min := 1, max := 5, label := "Light Snow (1-5 in)" }
  else if name = "good" then some { min := 5, max := 15, label := "Good Snow (5-15 in)" }
  else if name = "great" then some { min := 15, max := 30, label := "Great Snow (15-30 in)" }
  else none

/-- An alert_subscriptions row, reduced to the fields checkForAlerts
reads and writes. -/
structure Subscription where
  id : Nat
  resortId : String
  resortName : String
  threshold : String
  timeframe : Int
  isActive : Bool
  lastTriggered : Option Int
  lastChecked : Option Int
deriving DecidableEq

/-- A forecasts row, reduced to the fields checkForAlerts reads. -/
structure Forecast where
  resortId : String
  forecastDate : Int
  predictedSnow : Int
deriving DecidableEq

/-- An alert_notifications row. -/
structure AlertNotification where
  subscriptionId : Nat
  title : String
  message : String
  predictedSnow : Int
  forecastDate : Int
  createdAt : Int
deriving DecidableEq

/-- The store state the alert engine touches. -/
structure DbState where
  subscriptions : List Subscription
  forecasts : List Forecast
  notifications : List AlertNotification
deriving DecidableEq

/-- The subscription select by primary key. -/
def findSubscription (db : DbState) (sid : Nat) : Option Subscription :=
  db.subscriptions.find? (fun s => s.id == sid)

/-- The forecast query of checkForAlerts: rows of the resort with
forecast date in the closed window from today to today plus the
timeframe and predicted snowfall at least the threshold minimum. -/
def matchingForecasts (db : DbState) (sub : Subscription) (thr : Threshold)
    (todayD : Int) : List Forecast :=
  db.forecasts.filter (fun f =>
    f.resortId == sub.resortId && decide (todayD ≤ f.forecastDate)
      && decide (f.forecastDate ≤ todayD + sub.timeframe)
      && decide (thr.min ≤ f.predictedSnow))

/-- Order by predicted snowfall descending, limit one: a maximal
element (the first one under ties). -/
def pickMaxSnow : List Forecast → Option Forecast
  | [] => none
  | f :: fs =>
      some (fs.foldl (fun best g => if best.predictedSnow < g.predictedSnow then g else best) f)

/-- The recent-notification query of checkForAlerts: a notification of
this subscription for this forecast date created within the last 24
hours. -/
def hasRecentNotification (db : DbState) (now : Int) (sid : Nat) (fd : Int) : Bool :=
  !(db.notifications.filter (fun n =>
      n.subscriptionId == sid && n.forecastDate == fd
        && decide (now - 24 * 60 * 60 * 1000 ≤ n.createdAt))).isEmpty

/-- The severity word chosen for the notification title. -/
def snowLabel (ps : Int) : String :=
  if 15 ≤ ps then "Great" else if 5 ≤ ps then "Good" else "Light"

/-- The notification row checkForAlerts inserts. -/
def mkNotification (now : Int) (sid : Nat) (sub : Subscription)
    (f : Forecast) : AlertNotification :=
  { subscriptionId := sid
    title := snowLabel f.predictedSnow ++ " Snow Alert: " ++ sub.resortName
    message := toString f.predictedSnow ++ " in of snow predicted for day " ++
      toString f.forecastDate
    predictedSnow := f.predictedSnow
    forecastDate := f.forecastDate
    createdAt := now }

/-- The last-triggered and last-checked stamp applied to the matching
subscription row after a successful insert. -/
def markTriggered (now : Int) (sid : Nat) (s : Subscription) : Subscription :=
  if s.id == sid then { s with lastTriggered := some now, lastChecked := some now } else s

/-- Embedding of checkForAlerts. Arguments: the store state, the
current time, the current day, whether the notification insert
succeeds, and the subscription id. Returns the triggered flag together
with the resulting store state. Every early return leaves the state
unchanged; only the success path appends the notification and stamps
the subscription. -/
def checkForAlerts (db : DbState) (now todayD : Int) (insertOk : Bool)
    (subscriptionId : Nat) : Bool × DbState :=
  match findSubscription db subscriptionId with
  | none => (false, db)
  | some sub =>
      if !sub.isActive then (false, db)
      else
        match THRESHOLDS sub.threshold with
        | none => (false, db)
        | some threshold =>
            match pickMaxSnow (matchingForecasts db sub threshold todayD) with
            | none => (false, db)
            | some forecast =>
                if hasRecentNotification db now subscriptionId forecast.forecastDate then
                  (false, db)
                else if !insertOk then (false, db)
                else
                  (true,
                   { db with
                     notifications :=
                       db.notifications ++ [mkNotification now subscriptionId sub forecast]
                     subscriptions := db.subscriptions.map (markTriggered now subscriptionId) })

/-- A concrete subscription for the specification scenario: threshold
band good (5-15 inches), 5-day lookahead, active. -/
def exSub : Subscription :=
  { id := 1, resortId := "vail", resortName := "Vail", threshold := "good",
    timeframe := 5, isActive := true, lastTriggered := none, lastChecked := none }

/-- The good threshold band. -/
def exThrGood : Threshold := { min := 5, max := 15, label := "Good Snow (5-15 in)" }

/-- A forecast for 2026-01-15 predicting 10 inches at the subscribed
resort. -/
def exForecast : Forecast :=
  { resortId := "vail", forecastDate := daysFromCivil 2026 1 15, predictedSnow := 10 }

/-- The evaluation instant 2026-01-12T03:20:00Z in epoch
milliseconds. -/
def exNow : Int := 1768188000000

/-- The evaluation day 2026-01-12 as an epoch day count. -/
def exToday : Int := daysFromCivil 2026 1 12

/-- An existing notification for the same subscription and the same
forecast date 2026-01-15, created two hours before the evaluation
instant. -/
def exRecentNotification : AlertNotification :=
  { subscriptionId := 1, title := "t", message := "m", predictedSnow := 10,
    forecastDate := daysFromCivil 2026 1 15, createdAt := 1768188000000 - 2 * 60 * 60 * 1000 }

/-- An existing notification of the same subscription but for a
different forecast date 2026-01-10. -/
def exOtherDateNotification : AlertNotification :=
  { subscriptionId := 1, title := "t", message := "m", predictedSnow := 8,
    forecastDate := daysFromCivil 2026 1 10, createdAt := 1768188000000 - 2 * 60 * 60 * 1000 }

/-- Store state where the repeated check must not create a second
notification. -/
def exDbRepeat : DbState :=
  { subscriptions := [exSub], forecasts := [exForecast],
    notifications := [exRecentNotification] }

/-- Store state where the existing notification is for a different
forecast date, so the check does create one. -/
def exDbOther : DbState :=
  { subscriptions := [exSub], forecasts := [exForecast],
    notifications := [exOtherDateNotification] }

/-! ## Theorems

Helper lemmas first, then one theorem (with witness or
counterexample where applicable) per verified property.
-/

/-- Claim C3: for every month/day short forecast date, parseDate
assigns the year exactly as the specification describes (roll forward
when the current-year reading is more than 6 calendar months in the
past, roll back when more than 6 calendar months in the future); a
date already in YYYY-MM-DD format passes through unchanged; and in
particular reference 2025-12-28 resolves 01/03 to 2026-01-03 and
reference 2026-01-03 resolves 12/30 to 2025-12-30. -/
theorem parseDate_year_roll_spec :
    (∀ (s : String) (ry rm0 : Int), isIsoDateShape s.data = true →
        parseDate ry rm0 s = some s)
    ∧ (∀ (ry rm0 : Int) (s : String) (m d : Int),
        s ≠ "" → isIsoDateShape s.data = false →
        monthDayOf s = (some m, some d) → m ≠ 0 → d ≠ 0 →
        parseDate ry rm0 s = some (normalizeForecastDateSpec ry rm0 m d))
    ∧ parseDate 2025 11 "01/03" = some "2026-01-03"
    ∧ parseDate 2026 0 "12/30" = some "2025-12-30" := by
  refine ⟨?_, ?_, by decide, by decide⟩
  · intro s ry rm0 hiso
    have hne : s ≠ "" := by
      intro h
      rw [h] at hiso
      simp [isIsoDateShape] at hiso
    simp [parseDate, hne, hiso]
  · intro ry rm0 s m d hne hiso hmd hm hd
    simp only [parseDate, hne, if_false, hiso, Bool.false_eq_true, if_neg, hmd,
      normalizeForecastDateSpec]
    have hmb : (m != 0) = true := by simpa using hm
    have hdb : (d != 0) = true := by simpa using hd
    simp only [hmb, hdb, Bool.and_self, if_true]
    have harith : (rm0 - (m - 1)) + 12 * (ry - ry) = (ry * 12 + rm0) - (ry * 12 + (m - 1)) := by
      ring
    rw [harith]

/-- Witness for claim C3: the theorem applied at concrete inputs. The
passthrough conjunct is applied to the string 2026-02-14, and the
general year-roll conjunct to reference November 2025 with short date
02/14, which stays in the current year. -/
theorem parseDate_year_roll_spec_witness :
    parseDate 2025 10 "2026-02-14" = some "2026-02-14"
    ∧ parseDate 2025 10 "02/14" = some (normalizeForecastDateSpec 2025 10 2 14) := by
  constructor
  · exact parseDate_year_roll_spec.1 "2026-02-14" 2025 10 (by decide)
  · exact parseDate_year_roll_spec.2.1 2025 10 "02/14" 2 14 (by decide) (by decide)
      (by decide) (by decide) (by decide)

theorem splitZone_append_Z (t : List Char) : splitZone (t ++ ['Z']) = (t, Zone.utcZ) := by
  simp [splitZone]

theorem splitZone_noMarker (pre t : List Char) (h : hasTzMarker (pre ++ t) = false) :
    splitZone t = (t, Zone.noMarker) := by
  have hrevapp : (pre ++ t).reverse = t.reverse ++ pre.reverse := by simp
  unfold splitZone
  cases ht : t.reverse with
  | nil => rfl
  | cons c rest =>
    dsimp only
    by_cases hc : c = 'Z'
    · exfalso
      have hz : jsEndsWithZ (pre ++ t) = true := by
        unfold jsEndsWithZ
        rw [hrevapp, ht]
        simp [hc]
      simp [hasTzMarker, hz] at h
    · rw [if_neg hc]
      have hzo : zoneOffsetOf t = none := by
        unfold zoneOffsetOf
        rw [ht]
        cases rest with
        | nil => rfl
        | cons a1 r1 =>
          cases r1 with
          | nil => rfl
          | cons a2 r2 =>
            cases r2 with
            | nil => rfl
            | cons a3 r3 =>
              cases r3 with
              | nil => rfl
              | cons a4 r4 =>
                cases r4 with
                | nil => rfl
                | cons a5 r5 =>
                  dsimp only
                  rw [if_neg]
                  intro hcond
                  obtain ⟨hsgn, hcol, hd1, hd2, hd3, hd4⟩ := hcond
                  rcases hsgn with hp | hm
                  · have hmem : '+' ∈ pre ++ t := by
                      have hmem0 : a5 ∈ t.reverse := by rw [ht]; simp
                      rw [hp] at hmem0
                      exact List.mem_append.mpr (Or.inr (List.mem_reverse.mp hmem0))
                    have hjp : jsHasPlus (pre ++ t) = true := by
                      unfold jsHasPlus
                      simpa using hmem
                    simp [hasTzMarker, hjp] at h
                  · have ho : jsEndsOffset (pre ++ t) = true := by
                      unfold jsEndsOffset
                      rw [hrevapp, ht]
                      simp [hm, hcol, hd1, hd2, hd3, hd4]
                    simp [hasTzMarker, ho] at h
      rw [hzo]

theorem dateHead_eq_none_of_length (l : List Char) (h : l.length ≠ 10) : dateHead l = none := by
  unfold dateHead
  split
  · next => simp at h
  · rfl

theorem dateHead_last_digit (l : List Char) (x : Int × Int × Int) (h : dateHead l = some x) :
    ∃ c r, l.reverse = c :: r ∧ c.isDigit = true := by
  unfold dateHead at h
  split at h
  · next y1 y2 y3 y4 s1 mo1 mo2 s2 d1 d2 =>
    have hcond : s1 = '-' ∧ s2 = '-' ∧ [y1, y2, y3, y4, mo1, mo2, d1, d2].all Char.isDigit := by
      by_contra hneg
      rw [if_neg hneg] at h
      exact Option.noConfusion h
    obtain ⟨-, -, hdg⟩ := hcond
    simp only [List.all_cons, List.all_nil, Bool.and_eq_true] at hdg
    exact ⟨d2, [d1, s2, mo2, mo1, s1, y4, y3, y2, y1], by simp, hdg.2.2.2.2.2.2.2.1⟩
  · exact absurd h (by simp)

theorem jsDateParseL_append_Z (off : Int) (l : List Char) (h : hasTzMarker l = false) :
    jsDateParseL off (l ++ ['Z']) = jsDateParseL 0 l := by
  by_cases hlen : l.length < 10
  · have h1 : (l ++ ['Z']).take 10 = l ++ ['Z'] := List.take_of_length_le (by simp; omega)
    have h2 : l.take 10 = l := List.take_of_length_le (by omega)
    have hL : dateHead (l ++ ['Z']) = none := by
      by_cases he : (l ++ ['Z']).length = 10
      · cases hd : dateHead (l ++ ['Z']) with
        | none => rfl
        | some x =>
          obtain ⟨c, r, hrev, hdig⟩ := dateHead_last_digit _ _ hd
          rw [List.reverse_append] at hrev
          simp at hrev
          rw [← hrev.1] at hdig
          exact absurd hdig (by decide)
      · exact dateHead_eq_none_of_length _ he
    have hR : dateHead l = none := dateHead_eq_none_of_length _ (by omega)
    unfold jsDateParseL
    rw [h1, h2, hL, hR]
  · push_neg at hlen
    have htake : (l ++ ['Z']).take 10 = l.take 10 := List.take_append_of_le_length hlen
    have hdrop : (l ++ ['Z']).drop 10 = l.drop 10 ++ ['Z'] := List.drop_append_of_le_length hlen
    unfold jsDateParseL
    rw [htake, hdrop]
    cases hd : dateHead (l.take 10) with
    | none => rfl
    | some x =>
      obtain ⟨y, mo, d⟩ := x
      cases hrest : l.drop 10 with
      | nil => simp
      | cons a t =>
        have hlt : l = l.take 10 ++ (a :: t) := by
          conv_lhs => rw [← List.take_append_drop 10 l]
          rw [hrest]
        simp only [List.cons_append]
        have hZt : ¬ (a = 'Z' ∧ t ++ ['Z'] = []) := by simp
        by_cases haz : a = 'Z' ∧ t = []
        · exfalso
          obtain ⟨haz1, haz2⟩ := haz
          subst haz1; subst haz2
          have hz : jsEndsWithZ l = true := by
            unfold jsEndsWithZ
            rw [hlt]
            simp
          simp [hasTzMarker, hz] at h
        · rw [if_neg hZt, if_neg haz]
          by_cases ha : a = 'T'
          · rw [if_pos ha, if_pos ha]
            have hsz : splitZone (t ++ ['Z']) = (t, Zone.utcZ) := splitZone_append_Z t
            have hsn : splitZone t = (t, Zone.noMarker) := by
              apply splitZone_noMarker (l.take 10 ++ [a])
              rw [List.append_assoc]
              simpa using hlt ▸ h
            rw [hsz, hsn]
            cases parseTimeCore t with
            | none => rfl
            | some tm => simp
          · rw [if_neg ha, if_neg ha]

theorem parseDbTimestamp_naive_eq (off : Int) (s : String) (h : hasTzMarker s.data = false) :
    parseDbTimestamp off (JsValue.str s) = (jsDateParse 0 s).getD 0 := by
  by_cases hs : s = ""
  · subst hs
    rfl
  · have hfal : jsFalsy (JsValue.str s) = false := by
      simp only [jsFalsy, beq_eq_false_iff_ne, ne_eq]
      exact hs
    unfold parseDbTimestamp
    rw [hfal]
    dsimp only
    rw [h]
    simp only [Bool.false_eq_true, if_false]
    unfold jsDateParse
    rw [String.data_append]
    exact congrArg (Option.getD · 0) (jsDateParseL_append_Z off s.data h)

/-- Claim C2 (amended): for every timestamp string lacking a timezone
marker, parseDbTimestamp is independent of the process-local timezone
offset and equals the as-if-UTC parse of the string, so the computed
cache age is never negative due to timezone; in particular the
timestamp 2026-01-12T03:19:40.195 evaluated at 2026-01-12T03:20:00Z
yields a cache age of 19 seconds; null, undefined, plain-object, and
unparseable string values map to epoch 0 and are therefore evaluated
as stale at any realistic evaluation time. -/
theorem freshness_utc_interpretation :
    (∀ (s : String) (off₁ off₂ : Int), hasTzMarker s.data = false →
        parseDbTimestamp off₁ (JsValue.str s) = (jsDateParse 0 s).getD 0
        ∧ parseDbTimestamp off₁ (JsValue.str s) = parseDbTimestamp off₂ (JsValue.str s))
    ∧ (∀ off : Int,
        reportCacheAgeSeconds off ((jsDateParse 0 "2026-01-12T03:20:00Z").getD 0)
          (JsValue.str "2026-01-12T03:19:40.195") = 19)
    ∧ (∀ off : Int, parseDbTimestamp off JsValue.nullV = 0
        ∧ parseDbTimestamp off JsValue.undef = 0 ∧ parseDbTimestamp off JsValue.obj = 0)
    ∧ (∀ (s : String) (off : Int), hasTzMarker s.data = false → jsDateParse 0 s = none →
        parseDbTimestamp off (JsValue.str s) = 0)
    ∧ (∀ (off now : Int), CACHE_DURATION_HOURS * 3600 * 1000 ≤ now →
        hasFreshCache off now JsValue.nullV = false) := by
  refine ⟨?_, ?_, ?_, ?_, ?_⟩
  · intro s off₁ off₂ h
    exact ⟨parseDbTimestamp_naive_eq off₁ s h,
      (parseDbTimestamp_naive_eq off₁ s h).trans (parseDbTimestamp_naive_eq off₂ s h).symm⟩
  · intro off
    unfold reportCacheAgeSeconds
    rw [parseDbTimestamp_naive_eq off _ (by decide)]
    decide
  · intro off
    exact ⟨rfl, rfl, rfl⟩
  · intro s off h hnone
    rw [parseDbTimestamp_naive_eq off s h, hnone]
    rfl
  · intro off now hnow
    have h0 : parseDbTimestamp off JsValue.nullV = 0 := rfl
    simp only [hasFreshCache, reportCacheAgeSeconds, h0]
    apply decide_eq_false
    rw [Int.fdiv_eq_ediv _ (by norm_num)]
    unfold CACHE_DURATION_HOURS at hnow ⊢
    omega

/-- Witness for claim C2: the timezone-independence and as-if-UTC
conjuncts applied to the concrete naive timestamp from the
specification, at local offsets one hour and zero. -/
theorem freshness_utc_interpretation_witness :
    parseDbTimestamp 3600000 (JsValue.str "2026-01-12T03:19:40.195")
      = parseDbTimestamp 0 (JsValue.str "2026-01-12T03:19:40.195")
    ∧ parseDbTimestamp 3600000 (JsValue.str "2026-01-12T03:19:40.195")
      = (jsDateParse 0 "2026-01-12T03:19:40.195").getD 0 := by
  refine ⟨(freshness_utc_interpretation.1 "2026-01-12T03:19:40.195" 3600000 0 (by decide)).2,
          (freshness_utc_interpretation.1 "2026-01-12T03:19:40.195" 3600000 0 (by decide)).1⟩

/-- Claim C2 counterexample: the cache age the handler computes for
the timestamp 2026-01-12T03:19:40.195 evaluated at 2026-01-12T03:20:00Z
is 19 seconds, not the 20 seconds the claim states; and a non-string
numeric timestamp is not treated as stale: a number equal to the
evaluation instant evaluates as fresh. -/
theorem freshness_claim_counterexample :
    reportCacheAgeSeconds 0 ((jsDateParse 0 "2026-01-12T03:20:00Z").getD 0)
        (JsValue.str "2026-01-12T03:19:40.195") = 19
    ∧ reportCacheAgeSeconds 0 ((jsDateParse 0 "2026-01-12T03:20:00Z").getD 0)
        (JsValue.str "2026-01-12T03:19:40.195") ≠ 20
    ∧ parseDbTimestamp 0 (JsValue.num 1768188000000) = 1768188000000
    ∧ hasFreshCache 0 1768188000000 (JsValue.num 1768188000000) = true := by
  decide

/-- Claim C1: on a cache miss the scraper is consulted first (a scraper
success means zero Gemini calls and the scraper result is used); if the
scraper throws, Gemini is invoked exactly once and its result is used
when it succeeds; and if both providers fail the caller receives a
failure response and no resort, snow-report or forecast upsert is
performed. -/
theorem source_fallback_chain :
    ∀ (id : String) (ry rm0 : Int) (today : String) (scrape gemini : Except String Snapshot),
      (∀ d, scrape = .ok d →
        (handleCacheMiss id ry rm0 today scrape gemini).geminiCalls = 0
        ∧ (handleCacheMiss id ry rm0 today scrape gemini).response = .ok d)
      ∧ (∀ e, scrape = .error e →
          (handleCacheMiss id ry rm0 today scrape gemini).geminiCalls = 1)
      ∧ (∀ e d, scrape = .error e → gemini = .ok d →
          (handleCacheMiss id ry rm0 today scrape gemini).response = .ok d)
      ∧ (∀ e₁ e₂, scrape = .error e₁ → gemini = .error e₂ →
          (handleCacheMiss id ry rm0 today scrape gemini).response
              = .error "Failed to fetch resort data"
          ∧ (handleCacheMiss id ry rm0 today scrape gemini).writes = []) := by
  intro id ry rm0 today scrape gemini
  refine ⟨?_, ?_, ?_, ?_⟩
  · intro d hd
    subst hd
    exact ⟨rfl, rfl⟩
  · intro e he
    subst he
    cases gemini <;> exact rfl
  · intro e d he hd
    subst he; subst hd
    exact rfl
  · intro e₁ e₂ h₁ h₂
    subst h₁; subst h₂
    exact ⟨rfl, rfl⟩

/-- Witness for claim C1: a concrete scraper 404 falling back to a
successful Gemini snapshot, and a concrete double failure leaving the
store untouched. -/
theorem source_fallback_chain_witness :
    (handleCacheMiss "vail" 2025 11 "2025-12-28" (.error "404")
        (.ok { name := "Vail", forecast := some [{ date := "01/03", snowInches := 5 }] })).response
      = .ok { name := "Vail", forecast := some [{ date := "01/03", snowInches := 5 }] }
    ∧ (handleCacheMiss "vail" 2025 11 "2025-12-28" (.error "404") (.error "quota")).writes = [] := by
  constructor
  · exact (source_fallback_chain "vail" 2025 11 "2025-12-28" (.error "404")
      (.ok { name := "Vail", forecast := some [{ date := "01/03", snowInches := 5 }] })).2.2.1
      "404" _ rfl rfl
  · exact ((source_fallback_chain "vail" 2025 11 "2025-12-28" (.error "404")
      (.error "quota")).2.2.2 "404" "quota" rfl rfl).2

theorem refreshLoop_spec (l : List (String × Bool)) :
    ∀ succ fail proc, refreshLoop l succ fail proc
      = (succ + (l.filter (fun e => e.2)).length,
         fail + (l.filter (fun e => !e.2)).length,
         proc ++ l.map (fun e => e.1)) := by
  induction l with
  | nil => intro succ fail proc; simp [refreshLoop]
  | cons e rest ih =>
    intro succ fail proc
    cases he : e.2 with
    | true =>
      simp [refreshLoop, he, ih, Prod.mk.injEq]
      omega
    | false =>
      simp [refreshLoop, he, ih, Prod.mk.injEq]
      omega

theorem filter_length_split (l : List (String × Bool)) :
    (l.filter (fun e => e.2)).length + (l.filter (fun e => !e.2)).length = l.length := by
  induction l with
  | nil => simp
  | cons e rest ih =>
    cases he : e.2 <;> simp [List.filter_cons, he] <;> omega

/-- Claim C5: a refresh batch over N entities processes every entity in
order even when some fail, and the returned summary satisfies
total = N and success + failed = total, with success counting exactly
the entities whose fetch succeeded; in particular 5 entities with
entity 3 throwing yield total 5, success 4, failed 1. -/
theorem refresh_batch_resilience :
    (∀ entities : List (String × Bool),
      (refreshAllCachedResorts entities).1.total = entities.length
      ∧ (refreshAllCachedResorts entities).1.success
          + (refreshAllCachedResorts entities).1.failed
          = (refreshAllCachedResorts entities).1.total
      ∧ (refreshAllCachedResorts entities).2 = entities.map (fun e => e.1)
      ∧ (refreshAllCachedResorts entities).1.success
          = (entities.filter (fun e => e.2)).length)
    ∧ refreshAllCachedResorts
        [("r1", true), ("r2", true), ("r3", false), ("r4", true), ("r5", true)]
        = ({ total := 5, success := 4, failed := 1 }, ["r1", "r2", "r3", "r4", "r5"]) := by
  constructor
  · intro entities
    have hl := refreshLoop_spec entities 0 0 []
    have hsplit := filter_length_split entities
    refine ⟨rfl, ?_, ?_, ?_⟩
    · show (refreshLoop entities 0 0 []).1 + (refreshLoop entities 0 0 []).2.1
        = entities.length
      rw [hl]
      simpa using hsplit
    · show (refreshLoop entities 0 0 []).2.2 = entities.map (fun e => e.1)
      rw [hl]
      simp
    · show (refreshLoop entities 0 0 []).1 = (entities.filter (fun e => e.2)).length
      rw [hl]
      simp
  · decide

/-- Claim C6 counterexample: with a probe error outside the
missing-table class (a permission error), detectDbMode completes
normally with snake mode after one probe; the result is an ok value,
not a raised error, so the error does not bubble up to the caller. -/
theorem schema_probe_error_counterexample :
    detectDbMode none (some { code := "42501", message := "permission denied" }) none
      = (.ok DbMode.snake, some DbMode.snake, 1)
    ∧ (detectDbMode none (some { code := "42501", message := "permission denied" }) none).1
        ≠ .error { code := "42501", message := "permission denied" } := by
  constructor
  · rfl
  · intro h
    exact Except.noConfusion h

/-- Claim C6 (amended): when the first probe fails with any error
other than a missing-table error, detectDbMode swallows the error,
settles on snake mode without probing the Prisma table, and raises
nothing to the caller. -/
theorem schema_probe_error_swallowed :
    ∀ (err : DbError) (pp : Option DbError), isMissingTableError (some err) = false →
      detectDbMode none (some err) pp = (.ok DbMode.snake, some DbMode.snake, 1) := by
  intro err pp h
  simp [detectDbMode, h]

/-- Witness for claim C6: the amended theorem applied to a concrete
permission error. -/
theorem schema_probe_error_swallowed_witness :
    detectDbMode none (some { code := "42501", message := "permission denied" }) none
      = (.ok DbMode.snake, some DbMode.snake, 1) :=
  schema_probe_error_swallowed { code := "42501", message := "permission denied" } none
    (by decide)

/-- Claim C7: a cached mode is returned as-is with zero probe reads,
and after any first call resolves a mode and fills the cache, every
later call with that cache returns the same mode and issues no probe
reads, whatever the store would answer. -/
theorem schema_mode_cached :
    ∀ sp pp sp₂ pp₂ : Option DbError,
      (∀ m : DbMode, detectDbMode (some m) sp pp = (.ok m, some m, 0))
      ∧ ∃ m k, detectDbMode none sp pp = (.ok m, some m, k)
          ∧ detectDbMode (some m) sp₂ pp₂ = (.ok m, some m, 0) := by
  intro sp pp sp₂ pp₂
  constructor
  · intro m
    rfl
  · cases sp with
    | none => exact ⟨.snake, 1, rfl, rfl⟩
    | some err =>
      by_cases h : isMissingTableError (some err) = false
      · exact ⟨.snake, 1, by simp [detectDbMode, h], rfl⟩
      · rw [Bool.not_eq_false] at h
        cases pp with
        | none => exact ⟨.prisma, 2, by simp [detectDbMode, h], rfl⟩
        | some e₂ => exact ⟨.snake, 2, by simp [detectDbMode, h], rfl⟩

/-- Claim C8 counterexample: with the scheduler enabled and no
interval configured, the installed interval is one hour
(3600000 milliseconds), which differs from the claimed default of six
hours. -/
theorem refresh_scheduler_default_counterexample :
    startBackgroundRefreshScheduler (some "true") none
      = some { initialDelayMs := 15000, intervalMs := 3600000 }
    ∧ (3600000 : Int) ≠ 6 * 60 * 60 * 1000 := by
  decide

/-- Claim C8 (amended): when enabled and no interval is configured the
scheduler runs one refresh 15 seconds after process start and then
repeats on a fixed interval whose default is 1 hour; a non-true enable
flag installs nothing, and an unparseable interval value also falls
back to 1 hour. -/
theorem refresh_scheduler_default :
    startBackgroundRefreshScheduler (some "true") none
      = some { initialDelayMs := 15000, intervalMs := 1 * 60 * 60 * 1000 }
    ∧ (∀ ee ie : Option String, ee ≠ some "true" →
        startBackgroundRefreshScheduler ee ie = none)
    ∧ (∀ s : String, jsParseInt s = none →
        startBackgroundRefreshScheduler (some "true") (some s)
          = some { initialDelayMs := 15000, intervalMs := 1 * 60 * 60 * 1000 }) := by
  refine ⟨by decide, ?_, ?_⟩
  · intro ee ie hne
    have hb : (ee == some "true") = false := by
      simp only [beq_eq_false_iff_ne, ne_eq]
      exact hne
    simp [startBackgroundRefreshScheduler, hb]
  · intro s hparse
    by_cases hs : s = ""
    · subst hs
      decide
    · simp [startBackgroundRefreshScheduler, hs, hparse]

/-- Witness for claim C8: the amended theorem applied to a disabled
environment and to a concrete unparseable interval string. -/
theorem refresh_scheduler_default_witness :
    startBackgroundRefreshScheduler none none = none
    ∧ startBackgroundRefreshScheduler (some "true") (some "soon")
        = some { initialDelayMs := 15000, intervalMs := 1 * 60 * 60 * 1000 } := by
  constructor
  · exact refresh_scheduler_default.2.1 none none (by decide)
  · exact refresh_scheduler_default.2.2 "soon" (by decide)

/-- Claim C9 counterexample: the memory-tier duration is not strictly
shorter than the persistent-store freshness window; the two are equal. -/
theorem memory_ttl_counterexample :
    ¬ (CACHE_DURATION < topDbFreshnessWindowMs)
    ∧ CACHE_DURATION = topDbFreshnessWindowMs := by
  decide

/-- Claim C9 (amended): the in-memory cache duration for the
top-by-region query results equals the persistent-store freshness
window applied to Forecast rows; both are one hour, and the memory
tier stops hitting exactly at that boundary. -/
theorem memory_ttl_equals_store_ttl :
    CACHE_DURATION = topDbFreshnessWindowMs
    ∧ CACHE_DURATION = 3600000
    ∧ topDbFreshnessWindowMs = 3600000
    ∧ memoryCacheHit false 5 3599999 0 = true
    ∧ memoryCacheHit false 5 3600000 0 = false := by
  decide

theorem foldl_pickMax_spec (fs : List Forecast) :
    ∀ f : Forecast,
      (fs.foldl (fun best g => if best.predictedSnow < g.predictedSnow then g else best) f)
          ∈ f :: fs
      ∧ ∀ g ∈ f :: fs, g.predictedSnow ≤
          (fs.foldl (fun best g => if best.predictedSnow < g.predictedSnow then g else best)
            f).predictedSnow := by
  induction fs with
  | nil =>
    intro f
    refine ⟨by simp, ?_⟩
    intro g hg
    simp at hg
    subst hg
    exact le_refl _
  | cons a fs ih =>
    intro f
    simp only [List.foldl_cons]
    obtain ⟨hmem, hmax⟩ := ih (if f.predictedSnow < a.predictedSnow then a else f)
    constructor
    · rcases List.mem_cons.mp hmem with hh | ht
      · rw [hh]
        by_cases hfa : f.predictedSnow < a.predictedSnow
        · simp only [hfa, if_true]
          exact List.mem_cons_of_mem _ (List.mem_cons_self _ _)
        · simp only [hfa, if_false]
          exact List.mem_cons_self _ _
      · exact List.mem_cons_of_mem _ (List.mem_cons_of_mem _ ht)
    · intro g hg
      rcases List.mem_cons.mp hg with hgf | hg₂
      · subst hgf
        refine le_trans ?_ (hmax _ (List.mem_cons_self _ _))
        by_cases hfa : g.predictedSnow < a.predictedSnow
        · simp only [hfa, if_true]
          exact le_of_lt hfa
        · simp only [hfa, if_false]
          exact le_refl _
      · rcases List.mem_cons.mp hg₂ with hga | hgt
        · subst hga
          refine le_trans ?_ (hmax _ (List.mem_cons_self _ _))
          by_cases hfa : f.predictedSnow < g.predictedSnow
          · simp only [hfa, if_true]
            exact le_refl _
          · simp only [hfa, if_false]
            omega
        · exact hmax _ (List.mem_cons_of_mem _ hgt)

theorem pickMaxSnow_spec (l : List Forecast) (f : Forecast) (h : pickMaxSnow l = some f) :
    f ∈ l ∧ ∀ g ∈ l, g.predictedSnow ≤ f.predictedSnow := by
  cases l with
  | nil => exact absurd h (by simp [pickMaxSnow])
  | cons a fs =>
    have hs := foldl_pickMax_spec fs a
    simp only [pickMaxSnow, Option.some.injEq] at h
    subst h
    exact hs

/-- Claim C4: for an active subscription with a valid threshold band
whose forecast query selects a row, the selected forecast is a
highest-snowfall forecast among the matching ones; when a notification
for that same subscription and forecast date already exists within the
last 24 hours the check creates nothing and changes nothing, and
otherwise the check creates exactly one new notification for that
forecast date and stamps the last-triggered timestamp of the
subscription. -/
theorem alert_idempotent_per_day :
    ∀ (db : DbState) (now todayD : Int) (sid : Nat) (sub : Subscription)
      (thr : Threshold) (f : Forecast),
      findSubscription db sid = some sub →
      sub.isActive = true →
      THRESHOLDS sub.threshold = some thr →
      pickMaxSnow (matchingForecasts db sub thr todayD) = some f →
      (f ∈ matchingForecasts db sub thr todayD
        ∧ ∀ g ∈ matchingForecasts db sub thr todayD, g.predictedSnow ≤ f.predictedSnow)
      ∧ (hasRecentNotification db now sid f.forecastDate = true →
          checkForAlerts db now todayD true sid = (false, db))
      ∧ (hasRecentNotification db now sid f.forecastDate = false →
          checkForAlerts db now todayD true sid =
            (true, { db with
                notifications := db.notifications ++ [mkNotification now sid sub f]
                subscriptions := db.subscriptions.map (markTriggered now sid) })) := by
  intro db now todayD sid sub thr f hfind hact hthr hmax
  refine ⟨pickMaxSnow_spec _ _ hmax, ?_, ?_⟩
  · intro hrec
    simp [checkForAlerts, hfind, hact, hthr, hmax, hrec]
  · intro hrec
    simp [checkForAlerts, hfind, hact, hthr, hmax, hrec]

/-- Claim C10: whenever checkForAlerts reports false it has changed
nothing: the returned state is the input state, so no notification row
is created and no subscription timestamp moves; and whenever it
reports true the insert succeeded, exactly one notification was
appended, and the subscription rows were restamped. -/
theorem alert_check_no_side_effect_on_false :
    ∀ (db : DbState) (now todayD : Int) (insertOk : Bool) (sid : Nat),
      ((checkForAlerts db now todayD insertOk sid).1 = false →
        (checkForAlerts db now todayD insertOk sid).2 = db)
      ∧ ((checkForAlerts db now todayD insertOk sid).1 = true →
          insertOk = true
          ∧ (checkForAlerts db now todayD insertOk sid).2.notifications.length
              = db.notifications.length + 1
          ∧ (checkForAlerts db now todayD insertOk sid).2.subscriptions
              = db.subscriptions.map (markTriggered now sid)) := by
  intro db now todayD insertOk sid
  unfold checkForAlerts
  repeat' split
  all_goals
    first
    | exact ⟨fun _ => rfl, fun h => Bool.noConfusion h⟩
    | (rename_i hins
       exact ⟨fun h => Bool.noConfusion h, fun _ => ⟨by simpa using hins, by simp, rfl⟩⟩)

/-- Witness for claim C4: with the good-band subscription, a 10 inch
forecast for 2026-01-15 and a notification for that date created two
hours ago, the repeated check produces no second notification and no
state change; with the prior notification on a different forecast
date, the check triggers and appends exactly one notification. -/
theorem alert_idempotent_per_day_witness :
    checkForAlerts exDbRepeat exNow exToday true 1 = (false, exDbRepeat)
    ∧ checkForAlerts exDbOther exNow exToday true 1 =
        (true, { exDbOther with
            notifications := exDbOther.notifications ++ [mkNotification exNow 1 exSub exForecast]
            subscriptions := exDbOther.subscriptions.map (markTriggered exNow 1) }) := by
  constructor
  · exact (alert_idempotent_per_day exDbRepeat exNow exToday 1 exSub exThrGood exForecast
      rfl rfl rfl rfl).2.1 rfl
  · exact (alert_idempotent_per_day exDbOther exNow exToday 1 exSub exThrGood exForecast
      rfl rfl rfl rfl).2.2 rfl

/-- Witness for claim C10: a concrete false-returning check (recent
duplicate notification) leaves the state unchanged, and so does a
concrete check whose notification insert fails. -/
theorem alert_check_no_side_effect_witness :
    (checkForAlerts exDbRepeat exNow exToday true 1).2 = exDbRepeat
    ∧ (checkForAlerts exDbOther exNow exToday false 1).2 = exDbOther := by
  constructor
  · exact (alert_check_no_side_effect_on_false exDbRepeat exNow exToday true 1).1 rfl
  · exact (alert_check_no_side_effect_on_false exDbOther exNow exToday false 1).1 rfl

end Snowpeak

